import Mathlib

/-!
Verification development for the fastapi-otel-integration service.

We shallowly embed the access-logging middleware (`src/main.py`), the
custom metrics manager singleton
(`src/otel/metrics/custom_metrics_manager.py`), the outgoing HTTP metrics
manager (`src/otel/metrics/outgoing_http_metrics_manager.py`), the global
attribute provider (`src/otel/metrics/otel_global_attributes.py`) and the
relevant environment-flag plumbing (`src/otel_utils.py`), and prove the
specification's testable properties about them.
-/

set_option autoImplicit false

deriving instance DecidableEq for Except

namespace FastapiOtel

/-- A JSON-ish value: the payloads appearing in response bodies and metric
attributes are strings, integers, booleans, or Python `None`. -/
inductive Jval where
  | s (v : String)
  | i (v : Int)
  | b (v : Bool)
  | null
  deriving DecidableEq, Repr

/-- A Python `dict` with string keys, modelled as an ordered association
list that never holds two entries with the same key (insertion keeps order,
overwrite keeps position, new keys append — as CPython does). -/
abbrev Dict := List (String × Jval)

/-- Python `d[k] = v` (`__setitem__`): overwrite the entry in place when the
key is present, append otherwise. -/
def dictSet (d : Dict) (k : String) (v : Jval) : Dict :=
  match d with
  | [] => [(k, v)]
  | (k2, v2) :: rest => if k2 == k then (k2, v) :: rest else (k2, v2) :: dictSet rest k v

/-- Python `d.update(new)`: set each key/value pair of `new` in order. -/
def dictUpdate (d new : Dict) : Dict :=
  new.foldl (fun acc kv => dictSet acc kv.1 kv.2) d

/-- Python `d.get(k)` / `d[k]` lookup. -/
def dictGet (d : Dict) (k : String) : Option Jval :=
  match d with
  | [] => none
  | (k2, v) :: rest => if k2 == k then some v else dictGet rest k

/-- The keys of a dict, in order. -/
def dictKeys (d : Dict) : List String := d.map Prod.fst

/-! ## Access-logging middleware (`src/main.py`) -/

/-- HTTP request headers: `none` models an absent header. -/
abbrev Headers := String → Option String

/-- Python `headers.get(key, dflt)`. -/
def headersGetD (h : Headers) (key dflt : String) : String := (h key).getD dflt

/-- The request data the middleware reads: URL path, HTTP method, headers. -/
structure Request where
  path : String
  method : String
  headers : Headers

/-- A response as the middleware sees it: status code plus JSON body. -/
structure Response where
  status_code : Nat
  content : Dict
  deriving DecidableEq, Repr

/-- The 400 short-circuit response of `log_requests` (src/main.py line 78). -/
def badRequestResponse (path : String) : Response :=
  { status_code := 400
  , content :=
      [ ("error", Jval.s "Bad Request")
      , ("message", Jval.s ("Missing \x27x-tenant-id\x27 header in the request: " ++ path)) ] }

/-- The uniform 500 response substituted for an unhandled exception
(src/main.py lines 85-92). -/
def internalErrorResponse : Response :=
  { status_code := 500
  , content :=
      [ ("error_code", Jval.i 500)
      , ("success", Jval.b false)
      , ("message", Jval.s "An unexpected error occurred. Please try again later.") ] }

/-- The three fractional digits printed by `f"{ms:.3f}"` when the elapsed
time is an exact count of microseconds: `n` is that count modulo 1000. -/
def pad3 (n : Nat) : String :=
  String.mk [Nat.digitChar (n / 100 % 10), Nat.digitChar (n / 10 % 10), Nat.digitChar (n % 10)]

/-- `f"{ms:.3f}"` for a non-negative elapsed time of `us` microseconds
(so `ms = us / 1000` exactly). -/
def fmtMs3Nat (us : Nat) : String := toString (us / 1000) ++ "." ++ pad3 (us % 1000)

/-- `f"{ms:.3f}"` for an elapsed time of `us` (possibly negative)
microseconds. -/
def fmtMs3 (us : Int) : String :=
  if us < 0 then "-" ++ fmtMs3Nat us.natAbs else fmtMs3Nat us.toNat

/-- `log_access_request` (src/main.py lines 53-68): the access-log lines
emitted for one request (none when the path is in `routes_to_ignore`).
Wall-clock readings enter as integer microsecond timestamps. -/
def log_access_request (req : Request) (statusCode : Nat) (startUs endUs : Int) : List String :=
  let routes_to_ignore : List String := ["/"]
  if routes_to_ignore.contains req.path then []
  else
    let tenant_id := headersGetD req.headers "x-tenant-id" "N/A"
    let host := headersGetD req.headers "Host" "N/A"
    let elapsedUs := endUs - startUs
    ["[" ++ host ++ "] -- [" ++ tenant_id ++ "] \"" ++ req.method ++ " " ++ req.path
      ++ "\" " ++ toString statusCode ++ " " ++ fmtMs3 elapsedUs ++ " ms"]

/-- Python `s.startswith(pre)`, character by character. -/
def strStartsWith (s pre : String) : Bool := pre.data.isPrefixOf s.data

/-- The guard of the 400 short-circuit in `log_requests` (src/main.py line
77): not a health-check path, under a protected path, and the tenant
header resolving to the sentinel default. -/
def mustShortCircuit (req : Request) : Bool :=
  let tenant_id := headersGetD req.headers "x-tenant-id" "N/A"
  !strStartsWith req.path "/api/healthcheck"
    && (strStartsWith req.path "/public/api" || strStartsWith req.path "/api")
    && tenant_id == "N/A"

/-- The try/except around `call_next` (src/main.py lines 81-92): the
downstream response, or the uniform 500 response when an exception
escapes the handler. -/
def handledResponse (call_next : Request → Except String Response) (req : Request) : Response :=
  match call_next req with
  | Except.ok r => r
  | Except.error _ => internalErrorResponse

/-- `log_requests` (src/main.py lines 71-95): the middleware around one
request. `call_next` is the downstream handler (`Except.error` models an
escaping exception); the result is the response returned to the client,
paired with the access-log lines emitted. -/
def log_requests (call_next : Request → Except String Response)
    (startUs endUs : Int) (req : Request) : Response × List String :=
  if mustShortCircuit req then (badRequestResponse req.path, [])
  else
    let response := handledResponse call_next req
    (response, log_access_request req response.status_code startUs endUs)

/-! ## Environment flags and global attributes
(`src/otel_utils.py`, `src/otel/metrics/otel_global_attributes.py`) -/

/-- The process environment, as `os.getenv` sees it. -/
abbrev Env := String → Option String

/-- `os.environ.get(name, dflt)` / `os.getenv(name, dflt)`. -/
def envGetD (env : Env) (name dflt : String) : String := (env name).getD dflt

/-- Python `str.lower` on the ASCII strings the flags use. -/
def pyLower (s : String) : String := String.mk (s.data.map Char.toLower)

/-- The case-insensitive boolean environment flags of `src/otel_utils.py`:
`os.environ.get(name, "false").lower() == "true"`. -/
def envFlag (env : Env) (name : String) : Bool := pyLower (envGetD env name "false") == "true"

/-- `is_app_tracing_enabled` (src/otel_utils.py lines 8-10). -/
def is_app_tracing_enabled (env : Env) : Bool := envFlag env "APP_TRACING_ENABLED"

/-- `get_global_attributes` (src/otel/metrics/otel_global_attributes.py
lines 3-11). The switch is compared with `"true"` exactly, with no
lower-casing. -/
def get_global_attributes (env : Env) : Dict :=
  if (env "SET_GLOBAL_OTEL_ATTRIBUTES").isSome
      && (env "SET_GLOBAL_OTEL_ATTRIBUTES" == some "true") then
    [ ("k8s_namespace_name", Jval.s (envGetD env "K8S_NAMESPACE_NAME" "unknown"))
    , ("k8s_pod_name", Jval.s (envGetD env "K8S_POD_NAME" "unknown"))
    , ("tenant_id", Jval.s (envGetD env "TENANT_ID" "unknown")) ]
  else []

/-! ## Outgoing HTTP metrics manager
(`src/otel/metrics/outgoing_http_metrics_manager.py`) -/

/-- An `OutgoingHttpMetricsManager` instance: the meter handle and names it
was constructed with, plus an object identity (distinct Python objects get
distinct ids). -/
structure OutgoingHttpMetricsManager where
  meter : Option Nat
  app_name : Option String
  service_name : Option String
  objectId : Nat
  deriving DecidableEq, Repr

/-- A Python value that is either a string or `None`, as a `Jval`. -/
def jstrOpt : Option String → Jval
  | some v => Jval.s v
  | none => Jval.null

/-- The fixed per-call attributes that `_get_attributes` writes over the
global attributes (lines 51-56). -/
def fixedCallAttributes (mgr : OutgoingHttpMetricsManager) (method path : String) : Dict :=
  [ ("method", Jval.s method)
  , ("path", Jval.s path)
  , ("app_name", jstrOpt mgr.app_name)
  , ("service_name", jstrOpt mgr.service_name) ]

/-- `_get_attributes` (lines 39-58): the global attributes, overwritten by
the fixed call attributes, overwritten by the call-site extras. -/
def getAttributesOf (env : Env) (mgr : OutgoingHttpMetricsManager)
    (method path : String) (extra_attributes : Dict) : Dict :=
  let attributes := get_global_attributes env
  let attributes := dictUpdate attributes (fixedCallAttributes mgr method path)
  dictUpdate attributes extra_attributes

/-- `increment_outgoing_http_requests_sent_count` (lines 60-64): the
counter observation recorded — the added amount paired with its
attributes. -/
def increment_outgoing_http_requests_sent_count (env : Env)
    (mgr : OutgoingHttpMetricsManager) (method path : String)
    (extra_attributes : Dict) : Nat × Dict :=
  (1, getAttributesOf env mgr method path extra_attributes)

/-- `record_outgoing_http_requests_duration_milliseconds` (lines 66-74):
writes `status_code` into the caller's `extra_attributes` dict, then
records the duration. The result is the histogram observation (value and
attributes) paired with the extra-attributes dict as the caller sees it
after the call. -/
def record_outgoing_http_requests_duration_milliseconds (env : Env)
    (mgr : OutgoingHttpMetricsManager) (method path : String)
    (status_code : Int) (duration : Int) (extra_attributes : Dict) :
    (Int × Dict) × Dict :=
  let extra2 := dictSet extra_attributes "status_code" (Jval.i status_code)
  ((duration, getAttributesOf env mgr method path extra2), extra2)

/-! ## Custom metrics manager (`src/otel/metrics/custom_metrics_manager.py`) -/

/-- The singleton state of `CustomMetricsManager`: the initialization flag,
the meter handle, the two lazily created sub-managers and the application
name. `nextId` is a freshness counter handing out identities to newly
constructed Python objects (the meter and the sub-managers). The FastAPI
sub-manager's module is not part of the sources, so that instance is kept
opaque as a bare object id. -/
structure CMMState where
  initialized : Bool
  meter : Option Nat
  fastapiMgr : Option Nat
  outgoingMgr : Option OutgoingHttpMetricsManager
  app_name : Option String
  nextId : Nat
  deriving DecidableEq, Repr

/-- The fresh singleton state right after `__init__` (lines 26-32). -/
def initialCMMState : CMMState :=
  { initialized := false, meter := none, fastapiMgr := none
  , outgoingMgr := none, app_name := none, nextId := 0 }

/-- The message of the `RuntimeError` raised by operations that require
initialization. -/
def uninitializedMsg : String := "CustomMetricsManager is not initialized. Call init first."

/-- `init` (lines 34-62): when not yet initialized, record the application
name, install a fresh meter and set the flag; otherwise do nothing. -/
def cmmInit (s : CMMState) (application_name : String) : CMMState :=
  if !s.initialized then
    { s with
      app_name := some application_name
    , meter := some s.nextId
    , initialized := true
    , nextId := s.nextId + 1 }
  else s

/-- `get_meter` (lines 64-68): returns the meter handle as is — `none` when
uninitialized — and never raises. -/
def cmmGetMeter (s : CMMState) : Option Nat := s.meter

/-- `register_outgoing_http_metrics` (lines 106-115): raise when not
initialized; construct the outgoing sub-manager when absent; otherwise
leave everything untouched. -/
def cmmRegisterOutgoingHttpMetrics (s : CMMState) (appName serviceName : Option String) :
    Except String CMMState :=
  if !s.initialized then Except.error uninitializedMsg
  else if s.outgoingMgr.isNone then
    Except.ok { s with
      outgoingMgr := some ⟨s.meter, appName, serviceName, s.nextId⟩
    , nextId := s.nextId + 1 }
  else Except.ok s

/-- `get_or_create_outgoing_http_metrics_manager` (lines 70-80): raise when
not initialized; create the sub-manager through
`register_outgoing_http_metrics(self.app_name, self.app_name)` when absent;
return the stored instance together with the new state. -/
def cmmGetOrCreateOutgoingHttpMetricsManager (s : CMMState) :
    Except String (Option OutgoingHttpMetricsManager × CMMState) :=
  if !s.initialized then Except.error uninitializedMsg
  else
    match (if s.outgoingMgr.isNone
           then cmmRegisterOutgoingHttpMetrics s s.app_name s.app_name
           else Except.ok s) with
    | Except.ok s2 => Except.ok (s2.outgoingMgr, s2)
    | Except.error e => Except.error e

/-- `register_fastapi_metrics` (lines 82-104): raise when not initialized;
construct the FastAPI sub-manager (opaque, fresh object) when absent;
otherwise leave everything untouched. -/
def cmmRegisterFastapiMetrics (s : CMMState) : Except String CMMState :=
  if !s.initialized then Except.error uninitializedMsg
  else if s.fastapiMgr.isNone then
    Except.ok { s with fastapiMgr := some s.nextId, nextId := s.nextId + 1 }
  else Except.ok s

/-- One call on the `CustomMetricsManager` singleton. -/
inductive CMMOp where
  | init (application_name : String)
  | getMeter
  | getOrCreateOutgoingHttpMetricsManager
  | registerOutgoingHttpMetrics (appName serviceName : Option String)
  | registerFastapiMetrics
  deriving DecidableEq, Repr

/-- The state after one call: a raised `RuntimeError` propagates before any
assignment, so it leaves the state unchanged. -/
def applyOp (op : CMMOp) (s : CMMState) : CMMState :=
  match op with
  | CMMOp.init n => cmmInit s n
  | CMMOp.getMeter => s
  | CMMOp.getOrCreateOutgoingHttpMetricsManager =>
      match cmmGetOrCreateOutgoingHttpMetricsManager s with
      | Except.ok (_, s2) => s2
      | Except.error _ => s
  | CMMOp.registerOutgoingHttpMetrics a b =>
      match cmmRegisterOutgoingHttpMetrics s a b with
      | Except.ok s2 => s2
      | Except.error _ => s
  | CMMOp.registerFastapiMetrics =>
      match cmmRegisterFastapiMetrics s with
      | Except.ok s2 => s2
      | Except.error _ => s

/-- Run a call sequence from the fresh singleton state. -/
def runOps (ops : List CMMOp) : CMMState :=
  ops.foldl (fun s op => applyOp op s) initialCMMState

/-- The lifecycle invariant of the singleton state: the meter handle is
present iff the initialization flag is set, and each sub-manager exists
only after initialization. -/
def cmmInvariant (s : CMMState) : Prop :=
  (s.meter.isSome = true ↔ s.initialized = true)
  ∧ (s.outgoingMgr.isSome = true → s.initialized = true)
  ∧ (s.fastapiMgr.isSome = true → s.initialized = true)

/-! ## Telemetry bootstrap and module import
(`src/otel_utils.py` lines 41-63, `src/main.py` lines 32-51) -/

/-- The custom-metrics portion of `setup_otel` (src/otel_utils.py lines
41-63), threading the singleton state. After `init` the register calls
cannot raise; `applyOp` keeps the function total. -/
def setup_otel_metrics (env : Env) (service_name : String) (s : CMMState) : CMMState :=
  if envFlag env "OTEL_ENABLE_CUSTOM_METRICS" then
    let s1 := cmmInit s service_name
    let s2 := if envFlag env "OTEL_ENABLE_FASTAPI_METRICS"
              then applyOp CMMOp.registerFastapiMetrics s1 else s1
    if envFlag env "OTEL_ENABLE_OUTGOING_HTTP_METRICS" then
      applyOp (CMMOp.registerOutgoingHttpMetrics (some service_name) (some service_name)) s2
    else s2
  else s

/-- `load_configs` (src/main.py lines 32-41) restricted to the metrics
state: OTEL setup runs only when APP tracing is enabled; the service name
comes from `APP_NAME` with default `"trust3_iq"`. -/
def load_configs (env : Env) : CMMState :=
  if is_app_tracing_enabled env then
    setup_otel_metrics env (envGetD env "APP_NAME" "trust3_iq") initialCMMState
  else initialCMMState

/-- Module import of `src/main.py` (lines 48-51): after `load_configs`,
line 51 unconditionally asks the singleton for the outgoing HTTP metrics
manager; `Except.error` models the `RuntimeError` escaping and aborting the
server start. -/
def mainModuleImport (env : Env) :
    Except String (Option OutgoingHttpMetricsManager × CMMState) :=
  cmmGetOrCreateOutgoingHttpMetricsManager (load_configs env)

/-! ## Concrete sample material used to instantiate the claims -/

/-- A downstream handler that returns a plain 200 response. -/
def okHandler : Request → Except String Response := fun _ => Except.ok ⟨200, []⟩

/-- A downstream handler whose body raises an exception. -/
def failHandler : Request → Except String Response := fun _ => Except.error "Exception"

/-- Headers holding only the tenant header, set to the sentinel string. -/
def sentinelTenantHeaders : Headers := fun k => if k == "x-tenant-id" then some "N/A" else none

/-- Headers with no entries at all. -/
def emptyHeaders : Headers := fun _ => none

/-- An environment with no variables set. -/
def emptyEnv : Env := fun _ => none

/-- An environment where the global-attributes switch is set to the
upper-case string "TRUE". -/
def upperTrueEnv : Env :=
  fun k => if k == "SET_GLOBAL_OTEL_ATTRIBUTES" then some "TRUE" else none

/-- An environment where the global-attributes switch is set to the exact
lower-case string "true". -/
def lowerTrueEnv : Env :=
  fun k => if k == "SET_GLOBAL_OTEL_ATTRIBUTES" then some "true" else none

/-- An environment enabling APP tracing and custom metrics. -/
def fullFlagsEnv : Env := fun k =>
  if k == "APP_TRACING_ENABLED" then some "true"
  else if k == "OTEL_ENABLE_CUSTOM_METRICS" then some "true" else none

/-- A sample outgoing metrics manager instance. -/
def sampleMgr : OutgoingHttpMetricsManager := ⟨some 0, some "app", some "app", 1⟩

/-! ## Helper lemmas -/

theorem dictGet_dictSet (d : Dict) (k k' : String) (v : Jval) :
    dictGet (dictSet d k v) k' = if k == k' then some v else dictGet d k' := by
  induction d with
  | nil =>
    by_cases h : k = k' <;> simp [dictSet, dictGet, h]
  | cons hd tl ih =>
    obtain ⟨k2, v2⟩ := hd
    by_cases h2 : k2 = k <;> by_cases h' : k2 = k' <;> by_cases hk : k = k' <;>
      simp_all [dictSet, dictGet]

theorem dictGet_eq_none_of_not_mem (d : Dict) (k : String) (h : k ∉ dictKeys d) :
    dictGet d k = none := by
  induction d with
  | nil => rfl
  | cons hd tl ih =>
    obtain ⟨k2, v2⟩ := hd
    simp only [dictKeys, List.map_cons, List.mem_cons, not_or] at h
    simp only [dictGet]
    have : ¬ (k2 == k) := fun hc => h.1 (by simpa using (beq_iff_eq.mp hc).symm)
    simp only [if_neg this]
    exact ih (by simpa [dictKeys] using h.2)

/-- Last-write-wins lookup through `update`: when the keys of `new` are
pairwise distinct (as they are for any Python dict), a key is looked up in
`new` first and falls back to `d`. -/
theorem dictGet_dictUpdate (new : Dict) (hn : (dictKeys new).Nodup) (d : Dict) (k : String) :
    dictGet (dictUpdate d new) k = (dictGet new k).orElse (fun _ => dictGet d k) := by
  induction new generalizing d with
  | nil => simp [dictUpdate, dictGet, Option.orElse]
  | cons hd tl ih =>
    obtain ⟨k0, v0⟩ := hd
    simp only [dictKeys, List.map_cons, List.nodup_cons] at hn
    have step : dictUpdate d ((k0, v0) :: tl) = dictUpdate (dictSet d k0 v0) tl := by
      simp [dictUpdate, List.foldl_cons]
    rw [step, ih hn.2 (dictSet d k0 v0) ]
    simp only [dictGet]
    by_cases h0 : k0 == k
    · have hk : k0 = k := by simpa using h0
      subst hk
      have htl : dictGet tl k0 = none :=
        dictGet_eq_none_of_not_mem tl k0 (by simpa [dictKeys] using hn.1)
      simp [htl, dictGet_dictSet, Option.orElse]
    · simp only [if_neg h0]
      rw [dictGet_dictSet]
      simp only [if_neg h0]

/-- `dictSet` keeps the keys when the key is present and appends it
otherwise. -/
theorem dictKeys_dictSet (d : Dict) (k : String) (v : Jval) :
    dictKeys (dictSet d k v)
      = if k ∈ dictKeys d then dictKeys d else dictKeys d ++ [k] := by
  induction d with
  | nil => simp [dictSet, dictKeys]
  | cons hd tl ih =>
    obtain ⟨k2, v2⟩ := hd
    by_cases h2 : k2 = k
    · subst h2
      simp [dictSet, dictKeys]
    · have h2b : (k2 == k) = false := beq_eq_false_iff_ne.mpr h2
      have hcons : (k ∈ k2 :: dictKeys tl) ↔ k ∈ dictKeys tl := by
        simp [Ne.symm h2]
      have hstep : dictSet ((k2, v2) :: tl) k v = (k2, v2) :: dictSet tl k v := by
        simp [dictSet, h2b]
      rw [hstep]
      have hck : dictKeys ((k2, v2) :: dictSet tl k v) = k2 :: dictKeys (dictSet tl k v) := rfl
      have hcl : dictKeys ((k2, v2) :: tl) = k2 :: dictKeys tl := rfl
      rw [hck, ih, hcl]
      by_cases hmem : k ∈ dictKeys tl
      · rw [if_pos hmem, if_pos (hcons.mpr hmem)]
      · rw [if_neg hmem, if_neg (fun hc => hmem (hcons.mp hc))]
        simp

/-- `dictSet` preserves key distinctness. -/
theorem dictNodup_dictSet (d : Dict) (k : String) (v : Jval)
    (h : (dictKeys d).Nodup) : (dictKeys (dictSet d k v)).Nodup := by
  rw [dictKeys_dictSet]
  by_cases hmem : k ∈ dictKeys d
  · simpa [hmem] using h
  · simp only [hmem, if_false]
    simpa [List.nodup_append] using ⟨h, hmem⟩

/-- The short-circuit guard, characterized: health-check paths are exempt,
the path must be under a protected path, and the `x-tenant-id` header must
be absent or literally the sentinel string. -/
theorem mustShortCircuit_iff (req : Request) :
    mustShortCircuit req = true ↔
      (strStartsWith req.path "/api/healthcheck" = false
        ∧ (strStartsWith req.path "/public/api" = true ∨ strStartsWith req.path "/api" = true)
        ∧ (req.headers "x-tenant-id" = none ∨ req.headers "x-tenant-id" = some "N/A")) := by
  unfold mustShortCircuit headersGetD
  cases h : req.headers "x-tenant-id" with
  | none => simp [h]
  | some v => simp [h, and_assoc]

/-- The access-log line emitted for a request that is not on an ignored
route. -/
theorem log_access_request_eq (req : Request) (statusCode : Nat) (startUs endUs : Int)
    (hroot : req.path ≠ "/") :
    log_access_request req statusCode startUs endUs
      = ["[" ++ headersGetD req.headers "Host" "N/A" ++ "] -- ["
          ++ headersGetD req.headers "x-tenant-id" "N/A" ++ "] \"" ++ req.method ++ " "
          ++ req.path ++ "\" " ++ toString statusCode ++ " " ++ fmtMs3 (endUs - startUs)
          ++ " ms"] := by
  have hne : (req.path == "/") = false := beq_eq_false_iff_ne.mpr hroot
  simp [log_access_request, List.contains, List.elem, hne]

/-- For a non-negative elapsed time the printed value is the non-negative
milliseconds with exactly three fractional digits. -/
theorem fmtMs3_of_nonneg (us : Int) (h : 0 ≤ us) :
    fmtMs3 us = toString (us.toNat / 1000) ++ "." ++ pad3 (us.toNat % 1000) := by
  simp [fmtMs3, fmtMs3Nat, not_lt.mpr h]

/-- The fractional part always prints exactly three characters. -/
theorem pad3_length (n : Nat) : (pad3 n).length = 3 := rfl

/-- The lookup characterization of `_get_attributes`: call-site extras
win over the fixed call attributes, which win over the global
attributes. -/
theorem dictGet_getAttributesOf (env : Env) (mgr : OutgoingHttpMetricsManager)
    (method path : String) (extra : Dict) (hx : (dictKeys extra).Nodup) (k : String) :
    dictGet (getAttributesOf env mgr method path extra) k
      = (dictGet extra k).orElse (fun _ =>
          (dictGet (fixedCallAttributes mgr method path) k).orElse (fun _ =>
            dictGet (get_global_attributes env) k)) := by
  have hfix : (dictKeys (fixedCallAttributes mgr method path)).Nodup := by
    simp [fixedCallAttributes, dictKeys]
  simp only [getAttributesOf]
  rw [dictGet_dictUpdate extra hx]
  simp only [dictGet_dictUpdate (fixedCallAttributes mgr method path) hfix]

/-- Every singleton call preserves the lifecycle invariant. -/
theorem cmmInvariant_applyOp (op : CMMOp) (s : CMMState) (h : cmmInvariant s) :
    cmmInvariant (applyOp op s) := by
  obtain ⟨sinit, smeter, sfmgr, somgr, saname, snid⟩ := s
  cases sinit with
  | false =>
    cases op <;>
      simp_all [cmmInvariant, applyOp, cmmInit,
        cmmGetOrCreateOutgoingHttpMetricsManager, cmmRegisterOutgoingHttpMetrics,
        cmmRegisterFastapiMetrics]
  | true =>
    cases op <;> cases smeter <;> cases sfmgr <;> cases somgr <;>
      simp_all [cmmInvariant, applyOp, cmmInit,
        cmmGetOrCreateOutgoingHttpMetricsManager, cmmRegisterOutgoingHttpMetrics,
        cmmRegisterFastapiMetrics]

/-- The fresh singleton state satisfies the lifecycle invariant. -/
theorem cmmInvariant_initial : cmmInvariant initialCMMState := by
  simp [cmmInvariant, initialCMMState]

/-- The lifecycle invariant holds after any call sequence. -/
theorem cmmInvariant_runOps (ops : List CMMOp) : cmmInvariant (runOps ops) := by
  suffices h : ∀ s, cmmInvariant s → cmmInvariant (ops.foldl (fun s op => applyOp op s) s) from
    h initialCMMState cmmInvariant_initial
  induction ops with
  | nil => intro s hs; exact hs
  | cons op rest ih => intro s hs; exact ih _ (cmmInvariant_applyOp op s hs)

/-- Once initialized, no call clears the initialization flag. -/
theorem applyOp_initialized_mono (op : CMMOp) (s : CMMState) (h : s.initialized = true) :
    (applyOp op s).initialized = true := by
  obtain ⟨sinit, smeter, sfmgr, somgr, saname, snid⟩ := s
  cases op <;> cases sfmgr <;> cases somgr <;>
    simp_all [applyOp, cmmInit, cmmGetOrCreateOutgoingHttpMetricsManager,
      cmmRegisterOutgoingHttpMetrics, cmmRegisterFastapiMetrics]

/-- A created outgoing sub-manager is never replaced by any later call. -/
theorem applyOp_outgoingMgr_stable (op : CMMOp) (s : CMMState)
    (m : OutgoingHttpMetricsManager) (h : s.outgoingMgr = some m) :
    (applyOp op s).outgoingMgr = some m := by
  obtain ⟨sinit, smeter, sfmgr, somgr, saname, snid⟩ := s
  cases sinit <;> cases op <;> cases sfmgr <;>
    simp_all [applyOp, cmmInit, cmmGetOrCreateOutgoingHttpMetricsManager,
      cmmRegisterOutgoingHttpMetrics, cmmRegisterFastapiMetrics]

/-- A created FastAPI sub-manager is never replaced by any later call. -/
theorem applyOp_fastapiMgr_stable (op : CMMOp) (s : CMMState) (f : Nat)
    (h : s.fastapiMgr = some f) : (applyOp op s).fastapiMgr = some f := by
  obtain ⟨sinit, smeter, sfmgr, somgr, saname, snid⟩ := s
  cases sinit <;> cases op <;> cases somgr <;>
    simp_all [applyOp, cmmInit, cmmGetOrCreateOutgoingHttpMetricsManager,
      cmmRegisterOutgoingHttpMetrics, cmmRegisterFastapiMetrics]

/-- A repeat `init` is a no-op. -/
theorem cmmInit_noop (s : CMMState) (n : String) (h : s.initialized = true) :
    cmmInit s n = s := by
  simp [cmmInit, h]

/-- On an initialized state, the getter for the outgoing sub-manager never
raises. -/
theorem getOrCreate_isOk_of_initialized (s : CMMState) (h : s.initialized = true) :
    (cmmGetOrCreateOutgoingHttpMetricsManager s).isOk = true := by
  obtain ⟨sinit, smeter, sfmgr, somgr, saname, snid⟩ := s
  cases somgr <;>
    simp_all [cmmGetOrCreateOutgoingHttpMetricsManager, cmmRegisterOutgoingHttpMetrics,
      Except.isOk, Except.toBool]

/-- When APP tracing and custom metrics are both enabled, `load_configs`
leaves the singleton initialized. -/
theorem load_configs_initialized (env : Env) (ht : is_app_tracing_enabled env = true)
    (hc : envFlag env "OTEL_ENABLE_CUSTOM_METRICS" = true) :
    (load_configs env).initialized = true := by
  unfold load_configs setup_otel_metrics
  simp only [ht, hc, if_true]
  by_cases hf : envFlag env "OTEL_ENABLE_FASTAPI_METRICS" = true <;>
    by_cases ho : envFlag env "OTEL_ENABLE_OUTGOING_HTTP_METRICS" = true <;>
      simp only [hf, ho, if_true, Bool.not_eq_true] at * <;>
      first
        | exact applyOp_initialized_mono _ _ (applyOp_initialized_mono _ _ rfl)
        | exact applyOp_initialized_mono _ _ rfl
        | rfl

/-! ## Claims about the middleware -/

/-- Claim C1, counterexample: on the protected path "/api/data" with the
x-tenant-id header PRESENT and equal to the literal string "N/A", the
middleware still short-circuits with the 400 missing-header response, so
it is not true that the short-circuit fires only when the header is
absent. -/
theorem claim1_counterexample :
    sentinelTenantHeaders "x-tenant-id" = some "N/A"
    ∧ log_requests okHandler 0 0 ⟨"/api/data", "GET", sentinelTenantHeaders⟩
        = (badRequestResponse "/api/data", []) :=
  ⟨rfl, by decide⟩

/-- Claim C1 (amended): the middleware short-circuits with HTTP 400 iff
the path does not start with the health-check path, falls under a
protected path ("/public/api" or "/api"), and the x-tenant-id header is
absent OR carries the literal sentinel value "N/A"; the 400 body is the
JSON object naming the offending path; and on every non-protected path
the short-circuit never fires. -/
theorem claim1_middleware_short_circuit
    (call_next : Request → Except String Response) (startUs endUs : Int) (req : Request) :
    (mustShortCircuit req = true ↔
      (strStartsWith req.path "/api/healthcheck" = false
        ∧ (strStartsWith req.path "/public/api" = true ∨ strStartsWith req.path "/api" = true)
        ∧ (req.headers "x-tenant-id" = none ∨ req.headers "x-tenant-id" = some "N/A")))
    ∧ (mustShortCircuit req = true →
        log_requests call_next startUs endUs req = (badRequestResponse req.path, []))
    ∧ (strStartsWith req.path "/public/api" = false → strStartsWith req.path "/api" = false →
        mustShortCircuit req = false) := by
  refine ⟨mustShortCircuit_iff req, ?_, ?_⟩
  · intro h
    simp [log_requests, h]
  · intro h1 h2
    cases hb : mustShortCircuit req with
    | false => rfl
    | true =>
      rcases (mustShortCircuit_iff req).mp hb with ⟨_, hprot, _⟩
      rcases hprot with hp | hp
      · rw [h1] at hp; exact absurd hp (by decide)
      · rw [h2] at hp; exact absurd hp (by decide)

theorem claim1_witness :
    log_requests okHandler 0 0 ⟨"/api/data", "GET", emptyHeaders⟩
        = (badRequestResponse "/api/data", [])
    ∧ mustShortCircuit ⟨"/hello", "GET", emptyHeaders⟩ = false := by
  constructor
  · exact (claim1_middleware_short_circuit okHandler 0 0
      ⟨"/api/data", "GET", emptyHeaders⟩).2.1 (by decide)
  · exact (claim1_middleware_short_circuit okHandler 0 0
      ⟨"/hello", "GET", emptyHeaders⟩).2.2 (by decide) (by decide)

/-- Claim C9 (confirmed): on a protected, non-health-check path, a present
x-tenant-id header whose value is the literal string "N/A" is treated
exactly like an absent header: the middleware short-circuits with the 400
missing-header response, because absence is detected by comparing the
header value against the sentinel default "N/A". -/
theorem claim9_sentinel_header_treated_as_absent
    (call_next : Request → Except String Response) (startUs endUs : Int)
    (path method : String) (hs : Headers)
    (hhc : strStartsWith path "/api/healthcheck" = false)
    (hprot : strStartsWith path "/public/api" = true ∨ strStartsWith path "/api" = true)
    (hdr : hs "x-tenant-id" = some "N/A") :
    log_requests call_next startUs endUs ⟨path, method, hs⟩
      = (badRequestResponse path, []) := by
  have hsc : mustShortCircuit ⟨path, method, hs⟩ = true :=
    (mustShortCircuit_iff ⟨path, method, hs⟩).mpr ⟨hhc, hprot, Or.inr hdr⟩
  simp [log_requests, hsc]

theorem claim9_witness :
    log_requests okHandler 0 0 ⟨"/public/api/data", "POST", sentinelTenantHeaders⟩
      = (badRequestResponse "/public/api/data", []) :=
  claim9_sentinel_header_treated_as_absent okHandler 0 0 "/public/api/data" "POST"
    sentinelTenantHeaders (by decide) (Or.inl (by decide)) (by decide)

/-- Claim C2, counterexample: the path "/api/data" is not the bare root
path, yet the middleware emits no access-log line at all for a request to
it without the tenant header: the 400 short-circuit returns before
`log_access_request` runs. -/
theorem claim2_counterexample :
    ("/api/data" : String) ≠ "/"
    ∧ (log_requests okHandler 0 0 ⟨"/api/data", "GET", emptyHeaders⟩).2 = [] :=
  ⟨by decide, by decide⟩

/-- Claim C2 (amended): for every request whose path is not the bare root
path and that is not short-circuited by the missing-tenant-header check,
the middleware emits exactly one access-log line of the form
`[<host or "N/A">] -- [<tenant or "N/A">] "<METHOD> <path>" <status>
<elapsed> ms`, where the elapsed value is the non-negative end-minus-start
time in milliseconds printed with exactly three fractional digits. -/
theorem claim2_one_access_log_line
    (call_next : Request → Except String Response) (startUs endUs : Int) (req : Request)
    (hsc : mustShortCircuit req = false) (hroot : req.path ≠ "/")
    (hmono : startUs ≤ endUs) :
    (log_requests call_next startUs endUs req).2
      = ["[" ++ headersGetD req.headers "Host" "N/A" ++ "] -- ["
          ++ headersGetD req.headers "x-tenant-id" "N/A" ++ "] \"" ++ req.method ++ " "
          ++ req.path ++ "\" "
          ++ toString (log_requests call_next startUs endUs req).1.status_code ++ " "
          ++ (toString ((endUs - startUs).toNat / 1000) ++ "."
              ++ pad3 ((endUs - startUs).toNat % 1000)) ++ " ms"]
    ∧ 0 ≤ endUs - startUs
    ∧ (pad3 ((endUs - startUs).toNat % 1000)).length = 3 := by
  have h0 : 0 ≤ endUs - startUs := by omega
  refine ⟨?_, h0, pad3_length _⟩
  have hsplit : log_requests call_next startUs endUs req
      = (handledResponse call_next req,
         log_access_request req (handledResponse call_next req).status_code startUs endUs) := by
    simp [log_requests, hsc]
  rw [hsplit]
  rw [log_access_request_eq req _ startUs endUs hroot, fmtMs3_of_nonneg _ h0]

theorem claim2_witness :
    (log_requests okHandler 0 2500 ⟨"/hello", "GET", emptyHeaders⟩).2
      = ["[N/A] -- [N/A] \"GET /hello\" 200 " ++ ("2" ++ "." ++ pad3 500) ++ " ms"]
    ∧ (pad3 500).length = 3 := by
  have h := claim2_one_access_log_line okHandler 0 2500 ⟨"/hello", "GET", emptyHeaders⟩
    (by decide) (by decide) (by decide)
  refine ⟨?_, h.2.2⟩
  have h1 := h.1
  simp only [] at h1
  exact h1.trans (by decide)

/-- Claim C3 (confirmed): when the downstream handler raises, the
middleware catches the exception and substitutes the uniform 500
response; the client-visible body is the fixed JSON object
`{"error_code":500,"success":false,"message":"An unexpected error
occurred. Please try again later."}`, which does not depend on the error
detail in any way. -/
theorem claim3_unhandled_exception_uniform_500
    (call_next : Request → Except String Response) (startUs endUs : Int) (req : Request)
    (err : String) (hsc : mustShortCircuit req = false)
    (hfail : call_next req = Except.error err) :
    (log_requests call_next startUs endUs req).1 = internalErrorResponse
    ∧ (log_requests call_next startUs endUs req).1.status_code = 500
    ∧ (log_requests call_next startUs endUs req).1.content
        = [ ("error_code", Jval.i 500), ("success", Jval.b false)
          , ("message", Jval.s "An unexpected error occurred. Please try again later.") ] := by
  have h1 : (log_requests call_next startUs endUs req).1 = internalErrorResponse := by
    simp [log_requests, hsc, handledResponse, hfail]
  exact ⟨h1, by rw [h1]; rfl, by rw [h1]; rfl⟩

theorem claim3_witness :
    (log_requests failHandler 0 0 ⟨"/exception", "GET", emptyHeaders⟩).1 = internalErrorResponse
    ∧ (log_requests failHandler 0 0 ⟨"/exception", "GET", emptyHeaders⟩).1.status_code = 500 := by
  have h := claim3_unhandled_exception_uniform_500 failHandler 0 0
    ⟨"/exception", "GET", emptyHeaders⟩ "Exception" (by decide) rfl
  exact ⟨h.1, h.2.1⟩

/-! ## Claims about the metrics managers -/

/-- Claim C4, counterexample: before `init`, `get_meter` does NOT fail
with the uninitialized error — its source (lines 64-68) has no guard and
simply returns the unset meter handle — so it is false that every
operation other than init fails before initialization. -/
theorem claim4_counterexample :
    initialCMMState.initialized = false ∧ cmmGetMeter initialCMMState = none :=
  ⟨rfl, rfl⟩

/-- Claim C4 (amended): before `init`, each of
`get_or_create_outgoing_http_metrics_manager`,
`register_outgoing_http_metrics` and `register_fastapi_metrics` fails
with the uninitialized RuntimeError, every time, deterministically;
`get_meter` instead returns the unset meter handle without failing. -/
theorem claim4_uninitialized_operations_fail (s : CMMState)
    (h : s.initialized = false) (a b : Option String) :
    cmmGetOrCreateOutgoingHttpMetricsManager s = Except.error uninitializedMsg
    ∧ cmmRegisterOutgoingHttpMetrics s a b = Except.error uninitializedMsg
    ∧ cmmRegisterFastapiMetrics s = Except.error uninitializedMsg := by
  refine ⟨?_, ?_, ?_⟩ <;>
    simp [cmmGetOrCreateOutgoingHttpMetricsManager, cmmRegisterOutgoingHttpMetrics,
      cmmRegisterFastapiMetrics, h]

theorem claim4_witness :
    cmmGetOrCreateOutgoingHttpMetricsManager initialCMMState = Except.error uninitializedMsg
    ∧ cmmRegisterOutgoingHttpMetrics initialCMMState (some "a") (some "b")
        = Except.error uninitializedMsg
    ∧ cmmRegisterFastapiMetrics initialCMMState = Except.error uninitializedMsg :=
  claim4_uninitialized_operations_fail initialCMMState rfl (some "a") (some "b")

/-- Claim C5 (confirmed): on an initialized manager,
`get_or_create_outgoing_http_metrics_manager` returns the identical
instance on every call: the first call constructs and stores it exactly
once; a second call returns the same instance (same object identity) and
leaves the state untouched; repeat `register_outgoing_http_metrics` calls
also leave the state untouched; and when an instance already existed the
first call changed nothing either. -/
theorem claim5_get_or_create_same_instance (s : CMMState) (hinit : s.initialized = true) :
    ∃ m : OutgoingHttpMetricsManager, ∃ s1 : CMMState,
      cmmGetOrCreateOutgoingHttpMetricsManager s = Except.ok (some m, s1)
      ∧ s1.outgoingMgr = some m
      ∧ cmmGetOrCreateOutgoingHttpMetricsManager s1 = Except.ok (some m, s1)
      ∧ (∀ a b, cmmRegisterOutgoingHttpMetrics s1 a b = Except.ok s1)
      ∧ (∀ m0, s.outgoingMgr = some m0 → m = m0 ∧ s1 = s) := by
  obtain ⟨sinit, smeter, sfmgr, somgr, saname, snid⟩ := s
  subst hinit
  cases somgr with
  | some m0 =>
    refine ⟨m0, ⟨true, smeter, sfmgr, some m0, saname, snid⟩, ?_, rfl, ?_, ?_, ?_⟩
    · simp [cmmGetOrCreateOutgoingHttpMetricsManager]
    · simp [cmmGetOrCreateOutgoingHttpMetricsManager]
    · intro a b
      simp [cmmRegisterOutgoingHttpMetrics]
    · intro m1 h1
      exact ⟨Option.some.inj h1, rfl⟩
  | none =>
    refine ⟨⟨smeter, saname, saname, snid⟩,
      ⟨true, smeter, sfmgr, some ⟨smeter, saname, saname, snid⟩, saname, snid + 1⟩,
      ?_, rfl, ?_, ?_, ?_⟩
    · simp [cmmGetOrCreateOutgoingHttpMetricsManager, cmmRegisterOutgoingHttpMetrics]
    · simp [cmmGetOrCreateOutgoingHttpMetricsManager]
    · intro a b
      simp [cmmRegisterOutgoingHttpMetrics]
    · intro m1 h1
      cases h1

theorem claim5_witness :
    (cmmInit initialCMMState "app").initialized = true
    ∧ (∃ m : OutgoingHttpMetricsManager, ∃ s1 : CMMState,
        cmmGetOrCreateOutgoingHttpMetricsManager (cmmInit initialCMMState "app")
          = Except.ok (some m, s1)
        ∧ s1.outgoingMgr = some m
        ∧ cmmGetOrCreateOutgoingHttpMetricsManager s1 = Except.ok (some m, s1)
        ∧ (∀ a b, cmmRegisterOutgoingHttpMetrics s1 a b = Except.ok s1)
        ∧ (∀ m0, (cmmInit initialCMMState "app").outgoingMgr = some m0
            → m = m0 ∧ s1 = cmmInit initialCMMState "app")) :=
  ⟨rfl, claim5_get_or_create_same_instance (cmmInit initialCMMState "app") rfl⟩

/-- Claim C6 (confirmed): every call sequence preserves the state
invariant — meter present iff initialized, sub-managers only after
initialization; a created sub-manager is never replaced; once initialized
the manager never returns to the uninitialized state; and a repeat `init`
is a no-op leaving the whole state, in particular the meter and the
application name, unchanged. -/
theorem claim6_lifecycle_invariant (ops : List CMMOp) (op : CMMOp) (s : CMMState)
    (n : String) (m : OutgoingHttpMetricsManager) (f : Nat) :
    cmmInvariant (runOps ops)
    ∧ (s.initialized = true → (applyOp op s).initialized = true)
    ∧ (s.outgoingMgr = some m → (applyOp op s).outgoingMgr = some m)
    ∧ (s.fastapiMgr = some f → (applyOp op s).fastapiMgr = some f)
    ∧ (s.initialized = true →
        cmmInit s n = s ∧ (cmmInit s n).meter = s.meter
          ∧ (cmmInit s n).app_name = s.app_name) :=
  ⟨cmmInvariant_runOps ops, applyOp_initialized_mono op s, applyOp_outgoingMgr_stable op s m,
   applyOp_fastapiMgr_stable op s f,
   fun h => ⟨cmmInit_noop s n h, by rw [cmmInit_noop s n h], by rw [cmmInit_noop s n h]⟩⟩

theorem claim6_witness :
    cmmInvariant (runOps [CMMOp.init "app", CMMOp.getOrCreateOutgoingHttpMetricsManager])
    ∧ cmmInit (cmmInit initialCMMState "app") "other" = cmmInit initialCMMState "app" := by
  have h := claim6_lifecycle_invariant
    [CMMOp.init "app", CMMOp.getOrCreateOutgoingHttpMetricsManager]
    CMMOp.getMeter (cmmInit initialCMMState "app") "other"
    ⟨none, none, none, 0⟩ 0
  exact ⟨h.1, (h.2.2.2.2 rfl).1⟩

/-- Claim C7 (confirmed): the attribute set attached to a counter
increment or histogram record is the merge, last-write-wins per key, of
(a) the global environment attributes, (b) the fixed call attributes
method/path/app_name/service_name, and (c) the call-site extras; and
`record_outgoing_http_requests_duration_milliseconds` inserts
`status_code` into the caller's extra-attributes dict before the merge,
so the dict the caller passed is mutated by the call. -/
theorem claim7_attribute_merge (env : Env) (mgr : OutgoingHttpMetricsManager)
    (method path : String) (extra : Dict) (hx : (dictKeys extra).Nodup)
    (sc dur : Int) (k : String) :
    (dictGet (increment_outgoing_http_requests_sent_count env mgr method path extra).2 k
      = (dictGet extra k).orElse (fun _ =>
          (dictGet (fixedCallAttributes mgr method path) k).orElse (fun _ =>
            dictGet (get_global_attributes env) k)))
    ∧ ((record_outgoing_http_requests_duration_milliseconds
          env mgr method path sc dur extra).2
        = dictSet extra "status_code" (Jval.i sc))
    ∧ (dictGet (record_outgoing_http_requests_duration_milliseconds
          env mgr method path sc dur extra).1.2 k
        = (dictGet (dictSet extra "status_code" (Jval.i sc)) k).orElse (fun _ =>
            (dictGet (fixedCallAttributes mgr method path) k).orElse (fun _ =>
              dictGet (get_global_attributes env) k)))
    ∧ dictGet (record_outgoing_http_requests_duration_milliseconds
          env mgr method path sc dur extra).1.2 "status_code"
        = some (Jval.i sc) := by
  have hx2 : (dictKeys (dictSet extra "status_code" (Jval.i sc))).Nodup :=
    dictNodup_dictSet extra _ _ hx
  refine ⟨dictGet_getAttributesOf env mgr method path extra hx k, rfl, ?_, ?_⟩
  · exact dictGet_getAttributesOf env mgr method path _ hx2 k
  · have h := dictGet_getAttributesOf env mgr method path _ hx2 "status_code"
    rw [show (record_outgoing_http_requests_duration_milliseconds
          env mgr method path sc dur extra).1.2
        = getAttributesOf env mgr method path (dictSet extra "status_code" (Jval.i sc))
      from rfl, h, dictGet_dictSet]
    simp [Option.orElse]

theorem claim7_witness :
    (dictKeys ([] : Dict)).Nodup
    ∧ dictGet (record_outgoing_http_requests_duration_milliseconds
          emptyEnv sampleMgr "GET" "/trust3" 200 100 []).1.2 "status_code"
        = some (Jval.i 200) :=
  ⟨List.nodup_nil,
   (claim7_attribute_merge emptyEnv sampleMgr "GET" "/trust3" []
      List.nodup_nil 200 100 "status_code").2.2.2⟩

/-- Claim C8, counterexample: the switch is NOT interpreted
case-insensitively. With `SET_GLOBAL_OTEL_ATTRIBUTES=TRUE` — whose
lower-casing is "true", so a case-insensitive boolean would be on —
`get_global_attributes` still returns the empty mapping, because the code
compares the raw value with the exact string "true". -/
theorem claim8_counterexample :
    upperTrueEnv "SET_GLOBAL_OTEL_ATTRIBUTES" = some "TRUE"
    ∧ pyLower "TRUE" = "true"
    ∧ get_global_attributes upperTrueEnv = [] :=
  ⟨rfl, by decide, by decide⟩

/-- Claim C8 (amended): `get_global_attributes` returns the empty mapping
unless `SET_GLOBAL_OTEL_ATTRIBUTES` is set to the exact, case-sensitive
string "true"; when it is, it returns exactly the three keys
k8s_namespace_name, k8s_pod_name and tenant_id, each read from its own
environment variable with the literal string "unknown" as fallback. The
switch is the one boolean flag that is case-sensitive; the
`src/otel_utils.py` flags are the case-insensitive ones. -/
theorem claim8_global_attributes (env : Env) :
    (env "SET_GLOBAL_OTEL_ATTRIBUTES" = some "true" →
      get_global_attributes env
        = [ ("k8s_namespace_name", Jval.s (envGetD env "K8S_NAMESPACE_NAME" "unknown"))
          , ("k8s_pod_name", Jval.s (envGetD env "K8S_POD_NAME" "unknown"))
          , ("tenant_id", Jval.s (envGetD env "TENANT_ID" "unknown")) ])
    ∧ (env "SET_GLOBAL_OTEL_ATTRIBUTES" ≠ some "true" →
        get_global_attributes env = []) := by
  constructor
  · intro h
    simp [get_global_attributes, h]
  · intro h
    have hb : (env "SET_GLOBAL_OTEL_ATTRIBUTES" == some "true") = false :=
      beq_eq_false_iff_ne.mpr h
    simp [get_global_attributes, hb]

theorem claim8_witness :
    get_global_attributes lowerTrueEnv
      = [ ("k8s_namespace_name", Jval.s "unknown")
        , ("k8s_pod_name", Jval.s "unknown")
        , ("tenant_id", Jval.s "unknown") ]
    ∧ get_global_attributes emptyEnv = [] := by
  constructor
  · exact ((claim8_global_attributes lowerTrueEnv).1 (by decide)).trans (by decide)
  · exact (claim8_global_attributes emptyEnv).2 (by decide)

/-- Claim C10 (confirmed): importing `src/main.py` unconditionally asks
the singleton for the outgoing HTTP metrics manager, so whenever the
bootstrap did not run `init` — because `APP_TRACING_ENABLED` or
`OTEL_ENABLE_CUSTOM_METRICS` is not "true" case-insensitively — the
module-level call raises the uninitialized RuntimeError and the server
cannot start; the module loads exactly when both flags are enabled. -/
theorem claim10_import_requires_custom_metrics (env : Env) :
    ((is_app_tracing_enabled env = true ∧ envFlag env "OTEL_ENABLE_CUSTOM_METRICS" = true) →
      (mainModuleImport env).isOk = true)
    ∧ ((is_app_tracing_enabled env = false ∨ envFlag env "OTEL_ENABLE_CUSTOM_METRICS" = false) →
        mainModuleImport env = Except.error uninitializedMsg) := by
  constructor
  · rintro ⟨ht, hc⟩
    exact getOrCreate_isOk_of_initialized (load_configs env) (load_configs_initialized env ht hc)
  · intro h
    have hstate : load_configs env = initialCMMState := by
      rcases h with ht | hc
      · simp [load_configs, ht]
      · by_cases ht2 : is_app_tracing_enabled env = true
        · simp [load_configs, setup_otel_metrics, ht2, hc]
        · rw [Bool.not_eq_true] at ht2
          simp [load_configs, ht2]
    rw [mainModuleImport.eq_def, hstate]
    decide

theorem claim10_witness :
    (mainModuleImport fullFlagsEnv).isOk = true
    ∧ mainModuleImport emptyEnv = Except.error uninitializedMsg := by
  constructor
  · exact (claim10_import_requires_custom_metrics fullFlagsEnv).1 ⟨by decide, by decide⟩
  · exact (claim10_import_requires_custom_metrics emptyEnv).2 (Or.inl (by decide))

end FastapiOtel
